import Mathlib

/-!
Verification development for the ingestion hooks of `tk-config-default2`
(`hooks/tk-multi-publish2/ingest/collector.py` and
`hooks/tk-multi-publish2/ingest/ingest_files.py`).

The Python code is embedded shallowly:

* Python/YAML values are the inductive type `Value`; Python dictionaries are
  association lists with string keys whose operations (`dictInsert`,
  `dictPop`, `dictUpdate`, `dlookup`, dict comprehensions via `dictOfPairs`)
  mirror CPython dict semantics (unique keys, later assignment wins,
  insertion order preserved).  All dictionary keys that the embedded code
  ever uses are strings, so keys are modelled as `String`.
* Fallible Python code (statements that can raise `KeyError`, `TypeError`,
  `IndexError`, `ValueError`, or remote-call faults) is modelled in
  `Except String`.
* Calls into the tracking database (`shotgun.find_one` / `create` /
  `update` / `delete`) and into the host framework (template resolution,
  the yaml deserializer) are external collaborators; they enter the
  definitions as explicit oracle arguments (`Except`-valued results or
  plain functions), so every theorem quantifies over their outcomes.
* The dynamic `getattr(operator, ...)` dispatch used by the manifest field
  filters is reflection on the Python operator module; it is abstracted as
  an explicit boolean-valued argument `fvm` (field value match) covering
  the parse of the `%...%` / `#...#` strings, the dispatch and the
  expected-result coercion, which the scored-filter arithmetic never
  inspects.
-/

/-- Embedded Python/YAML value.  `vnone` is Python `None`. -/
inductive Value where
  | vnone : Value
  | str : String → Value
  | int : Int → Value
  | list : List Value → Value
  | dict : List (String × Value) → Value

/-- A Python dictionary with string keys. -/
abbrev Dict := List (String × Value)

/-- Python truthiness for embedded values (`if field_value:` etc.). -/
def truthy : Value → Bool
  | Value.vnone => false
  | Value.str s => !(s == "")
  | Value.int n => !(n == 0)
  | Value.list l => !l.isEmpty
  | Value.dict d => !d.isEmpty

/-- Dictionary lookup `d[k]` / `d.get(k)`: the value stored under `k`. -/
def dlookup {V : Type} (d : List (String × V)) (k : String) : Option V :=
  match d with
  | [] => none
  | p :: rest => if p.1 = k then some p.2 else dlookup rest k

/-- Dictionary assignment `d[k] = v`: replaces the binding of an existing
key in place, appends a new key at the end (CPython dict semantics). -/
def dictInsert {V : Type} (d : List (String × V)) (k : String) (v : V) :
    List (String × V) :=
  match d with
  | [] => [(k, v)]
  | p :: rest => if p.1 = k then (k, v) :: rest else p :: dictInsert rest k v

/-- Builds a dictionary from a key/value sequence, later entries winning:
the meaning of a Python dict comprehension. -/
def dictOfPairs {V : Type} (ps : List (String × V)) : List (String × V) :=
  ps.foldl (fun d p => dictInsert d p.1 p.2) []

/-- Python `d.update(e)`: insert every binding of `e` into `d`. -/
def dictUpdate {V : Type} (d e : List (String × V)) : List (String × V) :=
  e.foldl (fun acc p => dictInsert acc p.1 p.2) d

/-- Python `d.pop(k)` (the removal part): drops the binding of `k`. -/
def dictPop {V : Type} (d : List (String × V)) (k : String) :
    List (String × V) :=
  match d with
  | [] => []
  | p :: rest => if p.1 = k then rest else p :: dictPop rest k

/-- The Field Mapper applied to one key:
`table[k] if k in table else k` (collector.py, the mapping comprehensions
at lines 655, 693, 719, 727). -/
def mapKey (table : List (String × String)) (k : String) : String :=
  match dlookup table k with
  | some v => v
  | none => k

/-- The Field Mapper applied to a whole record:
`{table[k] if k in table else k: v for k, v in record.iteritems()}`. -/
def mapFields (table : List (String × String)) (record : Dict) : Dict :=
  dictOfPairs (record.map (fun p => (mapKey table p.1, p.2)))

/-- Modelled from the spec: the inverse mapping table "constructed from the
same mapping" used to map manifest fields back (the construction itself is
not part of the two ingest hook files; the spec describes it as the Python
dict built by swapping each pair of the forward table, later pairs
winning). -/
def invertTable (table : List (String × String)) : List (String × String) :=
  dictOfPairs (table.map (fun p => (p.2, p.1)))

/-- `DEFAULT_MANIFEST_SG_MAPPINGS["file"]["snapshots"]` (collector.py
lines 29-36). -/
def fileSnapshotsMapping : List (String × String) :=
  [("id", "sg_snapshot_id"), ("user", "snapshot_user"),
   ("name", "manifest_name"), ("version", "snapshot_version")]

/-- The three mapping tables under `DEFAULT_MANIFEST_SG_MAPPINGS["note"]`
(collector.py lines 37-54). -/
structure NoteMappings where
  notes : List (String × String)
  snapshots : List (String × String)
  versions : List (String × String)

/-- `DEFAULT_MANIFEST_SG_MAPPINGS["note"]` (collector.py lines 37-54). -/
def defaultNoteMappings : NoteMappings :=
  { notes := [("notes", "description"), ("name", "snapshot_name"),
              ("body", "content"), ("id", "sg_client_note_id")]
    snapshots := [("id", "sg_snapshot_id"), ("user", "snapshot_user"),
                  ("name", "manifest_name"), ("version", "snapshot_version")]
    versions := [("id", "sg_client_version_id"), ("name", "version_name")] }

/-- The `Manifest SG Mappings` setting: the `"file"`→`"snapshots"` table and
the `"note"` tables (collector.py lines 615-622). -/
structure Mappings where
  fileSnapshots : List (String × String)
  note : NoteMappings

/-- `DEFAULT_MANIFEST_SG_MAPPINGS` as a `Mappings` value. -/
def defaultMappings : Mappings :=
  { fileSnapshots := fileSnapshotsMapping, note := defaultNoteMappings }

/-- `os.path.join(base, p)` for the forms the collector uses: an absolute
second component wins, otherwise the components are joined with `/`. -/
def pathJoin (base p : String) : String :=
  if p.startsWith "/" then p
  else if base = "" then p
  else base ++ "/" ++ p

/-- `os.path.dirname(p)`: everything before the last `/`. -/
def dirName (p : String) : String :=
  match (p.splitOn "/").dropLast with
  | [] => ""
  | parts => String.intercalate "/" parts

/-- `os.path.basename(p)`: everything after the last `/`. -/
def baseName (p : String) : String :=
  ((p.splitOn "/").getLast?).getD p

/-- One processed manifest record: the merged `fields` dict and the
`files` dict mapping a path (or directory) to its list of tag names. -/
structure ProcessedData where
  fields : Dict
  files : List (String × List String)

/-- An entry of the list `_process_manifest_file` returns: either
`{"file": data}` or `{"note": data}`. -/
inductive ProcessedEntity where
  | file : ProcessedData → ProcessedEntity
  | note : ProcessedData → ProcessedEntity

/-- Python iteration `for x in v:` over an embedded value: only lists are
iterable in the fragment the collector relies on; anything else raises. -/
def asList (v : Value) : Except String (List Value) :=
  match v with
  | Value.list l => Except.ok l
  | _ => Except.error "TypeError: not iterable"

/-- Python dictionary use (`.iteritems()`, `k in v`, `v[k]`) of an embedded
value: anything but a dict raises. -/
def asDict (v : Value) : Except String Dict :=
  match v with
  | Value.dict d => Except.ok d
  | _ => Except.error "TypeError: not a dict"

/-- The accumulation `if append_path not in data["files"]:
data["files"][append_path] = list()` followed by
`data["files"][append_path].append(file_type)`
(collector.py lines 669-671 and 679-681). -/
def filesAppend (files : List (String × List String)) (p : String)
    (tag : String) : List (String × List String) :=
  match files with
  | [] => [(p, [tag])]
  | e :: rest =>
    if e.1 = p then (e.1, e.2 ++ [tag]) :: rest
    else e :: filesAppend rest p tag

/-- Processing of one `(file_type, files)` entry of a snapshot's
`file_types` dict (collector.py lines 661-681): a `frame_range` entry
contributes the directory of its first file, a discrete entry contributes
every listed path. -/
def addFileType (baseDir : String) (acc : List (String × List String))
    (fileType : String) (spec : Value) : Except String (List (String × List String)) :=
  match spec with
  | Value.dict d =>
    if (dlookup d "frame_range").isSome then
      match dlookup d "files" with
      | some (Value.list (f :: _)) =>
        (match f with
         | Value.dict fd =>
           (match dlookup fd "path" with
            | some (Value.str p) =>
              Except.ok (filesAppend acc (dirName (pathJoin baseDir p)) fileType)
            | _ => Except.error "KeyError: path")
         | _ => Except.error "TypeError: not a dict")
      | some (Value.list []) => Except.error "IndexError: list index out of range"
      | _ => Except.error "KeyError: files"
    else
      match dlookup d "files" with
      | some (Value.list ps) =>
        ps.foldlM (fun a f =>
          match f with
          | Value.dict fd =>
            (match dlookup fd "path" with
             | some (Value.str p) =>
               Except.ok (filesAppend a (pathJoin baseDir p) fileType)
             | _ => Except.error "KeyError: path")
          | _ => Except.error "TypeError: not a dict") acc
      | _ => Except.error "KeyError: files"
  | _ => Except.error "TypeError: argument of type is not iterable"

/-- Processing of one snapshot record (collector.py lines 652-683): map the
fields through the `file`/`snapshots` table, pop `file_types` (a missing
key raises), then accumulate the file groups. -/
def processSnapshot (table : List (String × String)) (baseDir : String)
    (snapshot : Dict) : Except String ProcessedData := do
  let fields := mapFields table snapshot
  match dlookup fields "file_types" with
  | none => Except.error "KeyError: file_types"
  | some ftv =>
    let fields := dictPop fields "file_types"
    match ftv with
    | Value.dict fileTypes => do
      let files ← fileTypes.foldlM
        (fun acc ft => addFileType baseDir acc ft.1 ft.2) []
      Except.ok ⟨fields, files⟩
    | _ => Except.error "TypeError: not a dict"

/-- The snapshot loop of `_process_manifest_file` (collector.py
lines 652-683): every element must be a record dict; results keep the
manifest order. -/
def processSnapshots (table : List (String × String)) (baseDir : String)
    (snapshots : List Value) : Except String (List ProcessedEntity) :=
  snapshots.foldlM (fun acc s => do
    let sd ← asDict s
    let d ← processSnapshot table baseDir sd
    Except.ok (acc ++ [ProcessedEntity.file d])) []

/-- The `ingest_note_links` dict built from a note's `note_links` list
(collector.py lines 699-702): keyed by each link's `"type"`. -/
def buildNoteLinks (links : Value) : Except String Dict :=
  match links with
  | Value.list ls =>
    ls.foldlM (fun acc l =>
      match l with
      | Value.dict d =>
        (match dlookup d "type" with
         | some (Value.str t) => Except.ok (dictInsert acc t l)
         | _ => Except.error "KeyError: type")
      | _ => Except.error "TypeError: not a dict") []
  | _ => Except.error "TypeError: not iterable"

/-- The note-only field dict (collector.py lines 692-702): the note record
mapped through the `notes` table, plus the derived `ingest_note_links`
entry when the raw note carries `note_links`. -/
def noteFieldsWithLinks (table : List (String × String)) (note : Dict) :
    Except String Dict := do
  let fields0 := mapFields table note
  match dlookup note "note_links" with
  | some links => do
    let linksDict ← buildNoteLinks links
    Except.ok (dictInsert fields0 "ingest_note_links" (Value.dict linksDict))
  | none => Except.ok fields0

/-- The version record's contribution to a note (collector.py
lines 714-720): the raw `notes` key is dropped, then the record is mapped
through the `versions` table. -/
def versionContribution (table : List (String × String))
    (noteVersion : Dict) : Dict :=
  mapFields table (dictPop noteVersion "notes")

/-- The snapshot record's contribution to a note (collector.py
lines 726-732): the record mapped through the `snapshots` table, with
`file_types` popped from the mapped dict whenever the raw record carries
`file_types` (the pop raises if the mapped dict lost the key). -/
def snapshotContribution (table : List (String × String))
    (noteSnapshot : Dict) : Except String Dict :=
  let snapshotFields0 := mapFields table noteSnapshot
  if (dlookup noteSnapshot "file_types").isSome then
    match dlookup snapshotFields0 "file_types" with
    | some _ => Except.ok (dictPop snapshotFields0 "file_types")
    | none => Except.error "KeyError: file_types"
  else Except.ok snapshotFields0

/-- The field merge of a note with its positional snapshot/version records
(collector.py lines 714-735): `data["fields"].update(version fields)` then
`data["fields"].update(snapshot fields)` — snapshot over version over
note. -/
def mergeRecordFields (m : NoteMappings) (fields1 : Dict)
    (noteSnapshot noteVersion : Dict) : Except String Dict := do
  let fields2 := dictUpdate fields1 (versionContribution m.versions noteVersion)
  let snapshotFields ← snapshotContribution m.snapshots noteSnapshot
  Except.ok (dictUpdate fields2 snapshotFields)

/-- Selection of the snapshot/version records paired with a note
(collector.py lines 707-712): empty records when `notes_index` is out of
range of either list, observing Python's short-circuit (`len(versions)` is
only evaluated when the index is within the snapshots list). -/
def selectNoteRecords (snapshots : List Value) (versionsV : Value)
    (i : Nat) : Except String (Value × Value) :=
  if i ≥ snapshots.length then Except.ok (Value.dict [], Value.dict [])
  else
    match versionsV with
    | Value.list l =>
      if i ≥ l.length then Except.ok (Value.dict [], Value.dict [])
      else Except.ok (snapshots.getD i (Value.dict []), l.getD i (Value.dict []))
    | _ => Except.error "TypeError: len of unsized object"

/-- The resolved absolute paths of all attachments (collector.py
lines 751-752). -/
def attachmentPathList (baseDir : String) (att : Value) :
    Except String (List Value) :=
  match att with
  | Value.list ls =>
    ls.foldlM (fun acc a =>
      match a with
      | Value.dict ad =>
        (match dlookup ad "path" with
         | some (Value.str p) => Except.ok (acc ++ [Value.str (pathJoin baseDir p)])
         | _ => Except.error "KeyError: path")
      | _ => Except.error "TypeError: not a dict") []
  | _ => Except.error "TypeError: not iterable"

/-- The attachment handling of a note (collector.py lines 737-754):
`attachments = data["fields"].pop("attachments")` raises when the merged
fields lack the key; a truthy attachment list contributes one file group
(the first attachment's path, with no tags); the `attachments` field is
re-created as the list of all resolved paths. -/
def processAttachments (baseDir : String) (fields3 : Dict) :
    Except String ProcessedData := do
  match dlookup fields3 "attachments" with
  | none => Except.error "KeyError: attachments"
  | some att => do
    let fields4 := dictPop fields3 "attachments"
    let files ←
      if truthy att then
        match att with
        | Value.list (a :: _) =>
          (match a with
           | Value.dict ad =>
             (match dlookup ad "path" with
              | some (Value.str p) =>
                Except.ok [(pathJoin baseDir p, ([] : List String))]
              | _ => Except.error "KeyError: path")
           | _ => Except.error "TypeError: not subscriptable")
        | _ => Except.error "TypeError: not subscriptable"
      else Except.ok []
    let paths ← attachmentPathList baseDir att
    Except.ok ⟨dictInsert fields4 "attachments" (Value.list paths), files⟩

/-- Processing of one note record (collector.py lines 685-754): map and
link-inject the note's own fields, pick the positional snapshot/version
records, merge with snapshot-over-version-over-note precedence, then
handle the attachments. -/
def processNote (m : NoteMappings) (baseDir : String)
    (snapshots : List Value) (versionsV : Value) (notesIndex : Nat)
    (note : Dict) : Except String ProcessedData :=
  match noteFieldsWithLinks m.notes note with
  | Except.error e => Except.error e
  | Except.ok fields1 =>
    match selectNoteRecords snapshots versionsV notesIndex with
    | Except.error e => Except.error e
    | Except.ok (snapV, verV) =>
      match asDict snapV with
      | Except.error e => Except.error e
      | Except.ok noteSnapshot =>
        match asDict verV with
        | Except.error e => Except.error e
        | Except.ok noteVersion =>
          match mergeRecordFields m fields1 noteSnapshot noteVersion with
          | Except.error e => Except.error e
          | Except.ok fields3 => processAttachments baseDir fields3

/-- The note loop of `_process_manifest_file` (collector.py
lines 685-757), carried out from a given `notes_index` (the index is
incremented once per processed note); an exception raised for any note
aborts the whole loop. -/
def processNotesFrom (m : NoteMappings) (baseDir : String)
    (snapshots : List Value) (versionsV : Value) (idx : Nat) :
    List Value → Except String (List ProcessedEntity)
  | [] => Except.ok []
  | n :: rest =>
    match asDict n with
    | Except.error e => Except.error e
    | Except.ok nd =>
      match processNote m baseDir snapshots versionsV idx nd with
      | Except.error e => Except.error e
      | Except.ok d =>
        match processNotesFrom m baseDir snapshots versionsV (idx + 1) rest with
        | Except.error e => Except.error e
        | Except.ok restEntities =>
          Except.ok (ProcessedEntity.note d :: restEntities)

/-- The body of the `try` block of `_process_manifest_file` after
deserialization (collector.py lines 633-638): `contents["snapshots"]` must
exist (a missing key or a non-dict document raises, which the enclosing
`try` catches); `notes` and `versions` default to empty lists. -/
def extractContents (contents : Value) : Except String (Value × Value × Value) :=
  match contents with
  | Value.dict d =>
    (match dlookup d "snapshots" with
     | some snaps =>
       Except.ok (snaps, (dlookup d "notes").getD (Value.list []),
                  (dlookup d "versions").getD (Value.list []))
     | none => Except.error "KeyError: snapshots")
  | _ => Except.error "TypeError: not subscriptable"

/-- `_process_manifest_file` (collector.py lines 587-759).  `openResult`
is the outcome of `open(path, "r")` — executed before the `try` block, so
its failure propagates; `yamlLoad` is the external yaml deserializer.  A
failure of `yaml.load` or of the key extraction is caught, logged, and the
still-empty `processed_snapshots` list is returned.  Failures in the
snapshot/note loops (which sit outside the `try`) propagate. -/
def _process_manifest_file (yamlLoad : String → Except String Value)
    (m : Mappings) (baseDir : String) (openResult : Except String String) :
    Except String (List ProcessedEntity) :=
  match openResult with
  | Except.error e => Except.error e
  | Except.ok raw =>
    match (yamlLoad raw).bind extractContents with
    | Except.error _ => Except.ok []
    | Except.ok (snapsV, notesV, versionsV) => do
      let snapshots ← asList snapsV
      let fileEntities ← processSnapshots m.fileSnapshots baseDir snapshots
      let notes ← asList notesV
      let noteEntities ← processNotesFrom m.note baseDir snapshots versionsV 0 notes
      Except.ok (fileEntities ++ noteEntities)

/-- A candidate item type as handled by
`_get_filtered_item_types_from_settings`: the tuple
`(resolution_order, work_path_template, item_type)`. -/
structure Candidate where
  resolutionOrder : Int
  workPathTemplate : Option String
  itemType : String
deriving DecidableEq, Repr

/-- Python truthiness of a `work_path_template` slot: `None` and the empty
string are falsy. -/
def truthyTemplate : Option String → Bool
  | none => false
  | some s => !(s == "")

/-- `max([resolution_order for ...])` over the incoming candidate tuples
(collector.py lines 935-936): `max` of an empty sequence raises
`ValueError`, hence the `Option`. -/
def maxResolutionOrder? (candidates : List Candidate) : Option Int :=
  match candidates.map (fun c => c.resolutionOrder) with
  | [] => none
  | x :: xs => some (xs.foldl max x)

/-- `manifest_file_fields.get(field)` (collector.py line 951); the value is
a dict in every caller, so a non-dict yields no value here. -/
def valueGet (v : Value) (k : String) : Option Value :=
  match v with
  | Value.dict d => dlookup d k
  | _ => none

/-- The match score of one candidate's `manifest_field_filters` dict
(collector.py lines 948-992): each configured filter whose manifest field
is present and truthy and whose parsed comparison succeeds contributes 1.
`fvm` stands for the reflective parse/dispatch/coercion of the parser
string (operator-module or value-bound method plus expected-result
coercion), which yields a boolean per (field value, parser string). -/
def matchScore (fvm : Value → String → Bool)
    (filters : List (String × String)) (mff : Value) : Nat :=
  filters.foldl (fun score f =>
    match valueGet mff f.1 with
    | some v => if truthy v then (if fvm v f.2 then score + 1 else score) else score
    | none => score) 0

/-- The sort key of the final ordering (collector.py lines 1030-1031):
`elem[0] if not elem[1] else elem[0] - max_resolution_order`. -/
def sortKey (maxRO : Int) (c : Candidate) : Int :=
  if truthyTemplate c.workPathTemplate then c.resolutionOrder - maxRO
  else c.resolutionOrder

/-- `_get_filtered_item_types_from_settings` (collector.py lines 916-1033)
from the point where the base class has produced the candidate tuples
(`candidates`).  `filtersOf` is each item type's `manifest_field_filters`
configuration dict; `creationProperties` is the `creation_properties`
dict.  `max_resolution_order` is computed unconditionally first (an empty
candidate list therefore raises `ValueError`).  Manifest-driven mode
rescores candidates that have a truthy template and a non-empty filter
configuration; non-manifest mode keeps only candidates with an empty
filter configuration.  The result is sorted (stably) by the template-aware
key. -/
def _get_filtered_item_types_from_settings (fvm : Value → String → Bool)
    (filtersOf : String → List (String × String))
    (candidates : List Candidate) (creationProperties : Dict) :
    Except String (List Candidate) :=
  match maxResolutionOrder? candidates with
  | none => Except.error "ValueError: max() arg is an empty sequence"
  | some maxRO =>
    match dlookup creationProperties "manifest_file_fields" with
    | some mff =>
      Except.ok ((candidates.map (fun c =>
        let filters := filtersOf c.itemType
        if truthyTemplate c.workPathTemplate && !filters.isEmpty then
          let s := matchScore fvm filters mff
          if s = filters.length then
            { c with resolutionOrder := c.resolutionOrder - (s : Int) }
          else
            { c with resolutionOrder := c.resolutionOrder + maxRO }
        else c)).mergeSort (fun a b => sortKey maxRO a ≤ sortKey maxRO b))
    | none =>
      Except.ok ((candidates.filter
        (fun c => (filtersOf c.itemType).isEmpty)).mergeSort
        (fun a b => sortKey maxRO a ≤ sortKey maxRO b))

/-- A tracking-database entity record (a Python dict). -/
abbrev Entity := Dict

/-- An `sgtk.Context` as far as the embedded code inspects it. -/
structure Context where
  project : Option Entity
  entity : Option Entity
  step : Option Entity
  task : Option Entity

/-- `step_entity["name"] if step_entity.get("name") else step_entity["code"]`
(collector.py line 1079): a missing `code` on an entity without a truthy
`name` raises `KeyError`. -/
def stepContent (s : Entity) : Except String Value :=
  match dlookup s "name" with
  | some v =>
    if truthy v then Except.ok v
    else
      (match dlookup s "code" with
       | some c => Except.ok c
       | none => Except.error "KeyError: code")
  | none =>
    match dlookup s "code" with
    | some c => Except.ok c
    | none => Except.error "KeyError: code"

/-- `_get_item_context_from_path` (collector.py lines 1035-1133).
`resolve` is the base class's template-to-context resolution (a pure
function of the path actually used and the seeded default entities);
`findStep`, `findTask` and `createTask` are the outcomes of the
tracking-database round-trips; `updateStatus` is the outcome of the
`sg_status_list` update, whose failure the code swallows
(`try: ... except: pass`).  A `create` call that *returns* nothing is
logged and the already-obtained context is returned; a create/find call
that *raises* propagates. -/
def _get_item_context_from_path (resolve : String → List Entity → Context)
    (isTemplateString : Bool)
    (findStep findTask createTask : Except String (Option Entity))
    (updateStatus : Except String Unit)
    (path : String) (defaultEntities : List Entity) : Except String Context :=
  let p := if isTemplateString then baseName path else path
  let context := resolve p defaultEntities
  match context.entity with
  | none => Except.ok context
  | some _ =>
    let stepRes : Except String (Option Entity) :=
      match context.step with
      | some s => Except.ok (some s)
      | none => findStep
    match stepRes with
    | Except.error e => Except.error e
    | Except.ok none => Except.ok context
    | Except.ok (some stepEntity) => do
      let _content ← stepContent stepEntity
      let taskFound ← findTask
      let taskEntity ←
        match taskFound with
        | some t => Except.ok (some t)
        | none => createTask
      match taskEntity with
      | none => Except.ok context
      | some task =>
        let _ := updateStatus
        Except.ok (resolve p [stepEntity, task])

/-- The observable outcome of `IngestFilesPlugin.undo`: whether a delete
call was issued against the tracking database, and either the item's
properties after the call or the exception that propagated. -/
structure UndoOutcome where
  deleteIssued : Bool
  result : Except String Dict

/-- `IngestFilesPlugin.undo` (ingest_files.py lines 279-312).  `props` is
`item.properties`; `findLinked` is the outcome of the fresh
`_find_linked_entity` lookup (which may itself raise); `deleteResult` is
the outcome of `shotgun.delete`.  The delete runs only when
`ingest_entity_data` is present and truthy and the fresh lookup found an
entity whose `sg_published_files` list is empty; `ingest_entity_data` is
popped only after the delete succeeded (a raising delete is caught and
logged, leaving the properties untouched). -/
def undo (props : Dict) (findLinked : Except String (Option Entity))
    (deleteResult : Except String Unit) : UndoOutcome :=
  match dlookup props "ingest_entity_data" with
  | none => ⟨false, Except.ok props⟩
  | some ledata =>
    match findLinked with
    | Except.error e => ⟨false, Except.error e⟩
    | Except.ok linkedEntity =>
      if truthy ledata then
        match linkedEntity with
        | none => ⟨false, Except.ok props⟩
        | some le =>
          match dlookup le "sg_published_files" with
          | some (Value.list pfs) =>
            if pfs.length = 0 then
              match deleteResult with
              | Except.ok _ => ⟨true, Except.ok (dictPop props "ingest_entity_data")⟩
              | Except.error _ => ⟨true, Except.ok props⟩
            else ⟨false, Except.ok props⟩
          | some _ => ⟨false, Except.error "TypeError: len of unsized object"⟩
          | none => ⟨false, Except.error "KeyError: sg_published_files"⟩
      else ⟨false, Except.ok props⟩

/-! Concrete sample inputs used by the witness theorems below. -/

/-- A candidate with a template and a filtered item type. -/
def cand1 : Candidate := ⟨10, some "tmpl", "ingest.filtered"⟩

/-- A candidate without a template and without filters. -/
def cand2 : Candidate := ⟨5, none, "ingest.plain"⟩

/-- A sample base candidate list. -/
def candidatesEx : List Candidate := [cand1, cand2]

/-- A sample `manifest_field_filters` configuration: two filters on the
`ingest.filtered` item type, none elsewhere. -/
def filtersOfEx : String → List (String × String) := fun t =>
  if t = "ingest.filtered" then
    [("department", "%eq:model:True%"), ("snapshot_type", "#startswith:maya:True#")]
  else []

/-- A field-value matcher that accepts everything (standing for two parser
strings that both evaluate to their expected results). -/
def fvmTrue : Value → String → Bool := fun _ _ => true

/-- Sample mapped manifest fields. -/
def mffEx : Value :=
  Value.dict [("department", Value.str "model"), ("snapshot_type", Value.str "maya_model")]

/-- Sample `creation_properties` containing `manifest_file_fields`. -/
def cpEx : Dict := [("manifest_file_fields", mffEx)]

/-- Sample `creation_properties` without `manifest_file_fields`. -/
def cpNoManifestEx : Dict := [("path", Value.str "/pkg/a.mb")]

/-- The scorer's output on the sample manifest-mode input. -/
def outEx : List Candidate :=
  (_get_filtered_item_types_from_settings fvmTrue filtersOfEx candidatesEx cpEx).toOption.getD []

/-- The scorer's output on the sample non-manifest input. -/
def outNoManifestEx : List Candidate :=
  (_get_filtered_item_types_from_settings fvmTrue filtersOfEx candidatesEx cpNoManifestEx).toOption.getD []

/-- A sample note record whose `attachments` list is empty. -/
def noteExC10 : Dict := [("note_type", Value.str "kickoff"), ("attachments", Value.list [])]

/-- The note-only fields of `noteExC10`. -/
def fields1C10 : Dict :=
  (noteFieldsWithLinks defaultNoteMappings.notes noteExC10).toOption.getD []

/-- The merged fields of `noteExC10` (merged with empty records). -/
def fields3C10 : Dict :=
  (mergeRecordFields defaultNoteMappings fields1C10 [] []).toOption.getD []

/-- A sample note record overlapping its snapshot record on `extra`. -/
def noteExC4 : Dict :=
  [("id", Value.int 11), ("body", Value.str "hello"), ("extra", Value.str "n")]

/-- A sample raw snapshot record paired with `noteExC4`. -/
def snapRecC4 : Dict := [("id", Value.int 22), ("extra", Value.str "s")]

/-- A sample raw version record paired with `noteExC4`. -/
def verRecC4 : Dict := [("id", Value.int 33), ("extra2", Value.str "v")]

/-- A one-element snapshots list. -/
def snapshotsC4 : List Value := [Value.dict snapRecC4]

/-- A one-element versions list. -/
def versionsC4 : List Value := [Value.dict verRecC4]

/-- The note-only fields of `noteExC4`. -/
def fields1C4 : Dict :=
  (noteFieldsWithLinks defaultNoteMappings.notes noteExC4).toOption.getD []

/-- The snapshot contribution of `snapRecC4`. -/
def snapFieldsC4 : Dict :=
  (snapshotContribution defaultNoteMappings.snapshots snapRecC4).toOption.getD []

/-- The merged fields of `noteExC4` with its paired records. -/
def mergedC4 : Dict :=
  (mergeRecordFields defaultNoteMappings fields1C4 snapRecC4 verRecC4).toOption.getD []

/-- A context with a linked entity but no pipeline step. -/
def ctxNoStep : Context :=
  { project := some [("type", Value.str "Project"), ("id", Value.int 1)]
    entity := some [("type", Value.str "Shot"), ("id", Value.int 2)]
    step := none
    task := none }

/-- The `vendor` step entity as returned by the step query. -/
def vendorStep : Entity :=
  [("name", Value.str "vendor"), ("id", Value.int 7), ("entity_type", Value.str "Shot")]

/-- Sample item properties carrying `ingest_entity_data`. -/
def propsEx : Dict :=
  [("ingest_entity_data", Value.dict [("type", Value.str "Element"), ("id", Value.int 42)])]

/-- A freshly looked-up linked entity with no linked published files. -/
def linkedEx : Entity := [("sg_published_files", Value.list []), ("id", Value.int 42)]

/-! Dictionary lemmas: the CPython dict semantics of the association-list
operations, phrased through `dlookup`. -/

theorem dlookup_dictInsert {V : Type} (d : List (String × V)) (k k2 : String)
    (v : V) :
    dlookup (dictInsert d k v) k2 = if k2 = k then some v else dlookup d k2 := by
  induction d with
  | nil =>
    rcases eq_or_ne k2 k with h | h
    · simp [dictInsert, dlookup, h]
    · simp [dictInsert, dlookup, h, Ne.symm h]
  | cons p rest ih =>
    by_cases hp : p.1 = k
    · rcases eq_or_ne k2 k with h | h
      · simp [dictInsert, dlookup, hp, h]
      · simp [dictInsert, dlookup, hp, h, Ne.symm h]
    · by_cases hpk2 : p.1 = k2
      · have h : ¬ k2 = k := fun hk => hp (hpk2.trans hk)
        simp [dictInsert, dlookup, hp, hpk2, h]
      · simp [dictInsert, dlookup, hp, hpk2, ih]

theorem mem_dictInsert {V : Type} (d : List (String × V)) (k : String)
    (v : V) (q : String × V) (h : q ∈ dictInsert d k v) :
    q = (k, v) ∨ q ∈ d := by
  induction d with
  | nil => simpa [dictInsert] using h
  | cons p rest ih =>
    by_cases hp : p.1 = k
    · simp only [dictInsert, hp, if_pos rfl] at h
      rcases List.mem_cons.mp h with h1 | h1
      · exact Or.inl h1
      · exact Or.inr (List.mem_cons_of_mem _ h1)
    · simp only [dictInsert, hp, if_neg hp] at h
      rcases List.mem_cons.mp h with h1 | h1
      · exact Or.inr (h1 ▸ List.mem_cons_self _ _)
      · rcases ih h1 with h2 | h2
        · exact Or.inl h2
        · exact Or.inr (List.mem_cons_of_mem _ h2)

theorem mem_keys_dictInsert {V : Type} (d : List (String × V)) (k a : String)
    (v : V) :
    a ∈ (dictInsert d k v).map Prod.fst ↔ a = k ∨ a ∈ d.map Prod.fst := by
  induction d with
  | nil => simp [dictInsert]
  | cons p rest ih =>
    by_cases hp : p.1 = k
    · subst hp
      simp [dictInsert]
    · simp [dictInsert, hp, ih]
      tauto

theorem keysND_dictInsert {V : Type} (d : List (String × V)) (k : String)
    (v : V) (h : (d.map Prod.fst).Nodup) :
    ((dictInsert d k v).map Prod.fst).Nodup := by
  induction d with
  | nil => simp [dictInsert]
  | cons p rest ih =>
    simp only [List.map_cons, List.nodup_cons] at h
    by_cases hp : p.1 = k
    · subst hp
      simpa [dictInsert] using h
    · simp only [dictInsert, if_neg hp, List.map_cons, List.nodup_cons]
      refine ⟨fun hmem => ?_, ih h.2⟩
      rcases (mem_keys_dictInsert rest k p.1 v).mp hmem with h1 | h1
      · exact hp h1
      · exact h.1 h1

theorem keysND_foldl_dictInsert {V : Type} (ps : List (String × V)) :
    ∀ acc : List (String × V), (acc.map Prod.fst).Nodup →
      ((ps.foldl (fun d p => dictInsert d p.1 p.2) acc).map Prod.fst).Nodup := by
  induction ps with
  | nil => intro acc h; simpa using h
  | cons p rest ih =>
    intro acc h
    simpa using ih (dictInsert acc p.1 p.2) (keysND_dictInsert acc p.1 p.2 h)

theorem keysND_dictOfPairs {V : Type} (ps : List (String × V)) :
    ((dictOfPairs ps).map Prod.fst).Nodup :=
  keysND_foldl_dictInsert ps [] (by simp)

theorem keysND_mapFields (table : List (String × String)) (record : Dict) :
    ((mapFields table record).map Prod.fst).Nodup :=
  keysND_dictOfPairs _

theorem keys_dictPop_subset {V : Type} (d : List (String × V)) (k a : String)
    (ha : a ∈ (dictPop d k).map Prod.fst) : a ∈ d.map Prod.fst := by
  induction d with
  | nil => simp [dictPop] at ha
  | cons q qs ihq =>
    by_cases hq : q.1 = k
    · simp only [dictPop, if_pos hq, List.map_cons] at ha ⊢
      exact List.mem_cons_of_mem _ ha
    · simp only [dictPop, if_neg hq, List.map_cons] at ha ⊢
      rcases List.mem_cons.mp ha with h1 | h1
      · exact h1 ▸ List.mem_cons_self _ _
      · exact List.mem_cons_of_mem _ (ihq h1)

theorem keysND_dictPop {V : Type} (d : List (String × V)) (k : String)
    (h : (d.map Prod.fst).Nodup) : ((dictPop d k).map Prod.fst).Nodup := by
  induction d with
  | nil => simp [dictPop]
  | cons p rest ih =>
    simp only [List.map_cons, List.nodup_cons] at h
    by_cases hp : p.1 = k
    · simpa [dictPop, hp] using h.2
    · simp only [dictPop, if_neg hp, List.map_cons, List.nodup_cons]
      exact ⟨fun hmem => h.1 (keys_dictPop_subset rest k p.1 hmem), ih h.2⟩

theorem dlookup_eq_none_of_not_mem_keys {V : Type} (d : List (String × V))
    (k : String) (h : k ∉ d.map Prod.fst) : dlookup d k = none := by
  induction d with
  | nil => rfl
  | cons p rest ih =>
    simp only [List.map_cons, List.mem_cons] at h
    push_neg at h
    have hp : ¬ p.1 = k := fun hp => h.1 hp.symm
    simp only [dlookup, if_neg hp]
    exact ih h.2

theorem dlookup_dictUpdate {V : Type} (e : List (String × V)) :
    ∀ d : List (String × V), (e.map Prod.fst).Nodup → ∀ k,
      dlookup (dictUpdate d e) k =
        match dlookup e k with
        | some v => some v
        | none => dlookup d k := by
  induction e with
  | nil => intro d _ k; simp [dictUpdate, dlookup]
  | cons p rest ih =>
    intro d he k
    simp only [List.map_cons, List.nodup_cons] at he
    have hstep : dictUpdate d (p :: rest) = dictUpdate (dictInsert d p.1 p.2) rest := by
      simp [dictUpdate]
    rw [hstep, ih (dictInsert d p.1 p.2) he.2 k]
    rcases eq_or_ne k p.1 with hk | hk
    · have hrest : dlookup rest k = none := by
        refine dlookup_eq_none_of_not_mem_keys rest k ?_
        rw [hk]; exact he.1
      have hp : p.1 = k := hk.symm
      have hR : dlookup (p :: rest) k = some p.2 := by
        simp only [dlookup, if_pos hp]
      rw [hrest, hR]
      show dlookup (dictInsert d p.1 p.2) k = some p.2
      rw [dlookup_dictInsert]
      exact if_pos hk
    · have hp : ¬ p.1 = k := fun h => hk h.symm
      have hR : dlookup (p :: rest) k = dlookup rest k := by
        simp only [dlookup, if_neg hp]
      rw [hR]
      cases hr : dlookup rest k with
      | some v => rfl
      | none =>
        show dlookup (dictInsert d p.1 p.2) k = dlookup d k
        rw [dlookup_dictInsert]
        exact if_neg hk

/-! Lemmas about `max` over a list of resolution orders. -/

theorem le_foldl_max (l : List Int) : ∀ x : Int, x ≤ l.foldl max x := by
  induction l with
  | nil => intro x; simp
  | cons y ys ih =>
    intro x
    calc x ≤ max x y := le_max_left x y
    _ ≤ ys.foldl max (max x y) := ih (max x y)

theorem mem_le_foldl_max (l : List Int) :
    ∀ x y : Int, y ∈ l → y ≤ l.foldl max x := by
  induction l with
  | nil => intro x y hy; simp at hy
  | cons z zs ih =>
    intro x y hy
    rcases List.mem_cons.mp hy with h | h
    · subst h
      calc y ≤ max x y := le_max_right x y
      _ ≤ zs.foldl max (max x y) := le_foldl_max zs (max x y)
    · exact ih (max x z) y h

theorem foldl_max_mem (l : List Int) :
    ∀ x : Int, l.foldl max x = x ∨ l.foldl max x ∈ l := by
  induction l with
  | nil => intro x; simp
  | cons y ys ih =>
    intro x
    have hfold : (y :: ys).foldl max x = ys.foldl max (max x y) := by simp
    rcases ih (max x y) with h | h
    · rcases max_choice x y with hm | hm
      · left; rw [hfold, h, hm]
      · right; rw [hfold, h, hm]; exact List.mem_cons_self _ _
    · right; rw [hfold]; exact List.mem_cons_of_mem _ h

theorem maxResolutionOrder_spec (candidates : List Candidate) (m : Int)
    (h : maxResolutionOrder? candidates = some m) :
    (∀ c ∈ candidates, c.resolutionOrder ≤ m) ∧
      ∃ c ∈ candidates, c.resolutionOrder = m := by
  unfold maxResolutionOrder? at h
  cases hc : candidates.map (fun c => c.resolutionOrder) with
  | nil => rw [hc] at h; cases h
  | cons x xs =>
    rw [hc] at h
    have hm : xs.foldl max x = m := by injection h
    constructor
    · intro c hcmem
      have hin : c.resolutionOrder ∈ x :: xs := by
        rw [← hc]; exact List.mem_map_of_mem _ hcmem
      rcases List.mem_cons.mp hin with h1 | h1
      · rw [h1, ← hm]; exact le_foldl_max xs x
      · rw [← hm]; exact mem_le_foldl_max xs x _ h1
    · have hin : m ∈ x :: xs := by
        rcases foldl_max_mem xs x with h1 | h1
        · rw [← hm, h1]; exact List.mem_cons_self _ _
        · rw [← hm]; exact List.mem_cons_of_mem _ h1
      rw [← hc] at hin
      rcases List.mem_map.mp hin with ⟨c, hcmem, hceq⟩
      exact ⟨c, hcmem, hceq⟩

/-! Claim theorems for the Filter Scorer. -/

/-- C1: in manifest-driven mode, every candidate with a (truthy) work path
template and a non-empty `manifest_field_filters` configuration appears in
the scorer's output with `resolution_order - match_score` when the match
score equals the number of configured filters, and with
`resolution_order + max_resolution_order` otherwise, where
`max_resolution_order` is the maximum resolution order over the input
candidate list (which the first conjunct characterizes). -/
theorem scorer_manifest_filter_scoring
    (fvm : Value → String → Bool) (filtersOf : String → List (String × String))
    (candidates : List Candidate) (cp : Dict) (mff : Value) (c : Candidate)
    (m : Int) (out : List Candidate)
    (hm : maxResolutionOrder? candidates = some m)
    (hcp : dlookup cp "manifest_file_fields" = some mff)
    (hc : c ∈ candidates)
    (ht : truthyTemplate c.workPathTemplate = true)
    (hf : filtersOf c.itemType ≠ [])
    (hout : _get_filtered_item_types_from_settings fvm filtersOf candidates cp =
      Except.ok out) :
    ((∀ d ∈ candidates, d.resolutionOrder ≤ m) ∧
      (∃ d ∈ candidates, d.resolutionOrder = m)) ∧
    { c with resolutionOrder :=
        if matchScore fvm (filtersOf c.itemType) mff = (filtersOf c.itemType).length
        then c.resolutionOrder - (matchScore fvm (filtersOf c.itemType) mff : Int)
        else c.resolutionOrder + m } ∈ out := by
  refine ⟨maxResolutionOrder_spec candidates m hm, ?_⟩
  unfold _get_filtered_item_types_from_settings at hout
  rw [hm, hcp] at hout
  simp only [Except.ok.injEq] at hout
  subst hout
  rw [(List.mergeSort_perm _ _).mem_iff]
  refine List.mem_map.mpr ⟨c, hc, ?_⟩
  have hfe : (filtersOf c.itemType).isEmpty = false := by
    cases hcase : filtersOf c.itemType with
    | nil => exact absurd hcase hf
    | cons a l => rfl
  simp only [ht, hfe, Bool.not_false, Bool.and_self]
  by_cases hs : matchScore fvm (filtersOf c.itemType) mff = (filtersOf c.itemType).length
  · simp [hs]
  · simp [hs]

/-- C1 witness: on the sample manifest-mode input, the filtered candidate
(resolution order 10, two filters, both matching) comes out with
resolution order `10 - 2 = 8`. -/
theorem scorer_manifest_filter_scoring_witness :
    ({ resolutionOrder := 8, workPathTemplate := some "tmpl",
       itemType := "ingest.filtered" } : Candidate) ∈ outEx := by
  have h := scorer_manifest_filter_scoring fvmTrue filtersOfEx candidatesEx cpEx mffEx
    cand1 10 outEx rfl rfl (List.mem_cons_self _ _) rfl (by decide) rfl
  exact h.2

/-- C2: on an empty base candidate list the scorer does not return an
empty sequence — it evaluates `max()` over the empty resolution-order
sequence and raises `ValueError` (the code computes
`max_resolution_order` before any emptiness check). -/
theorem scorer_empty_candidates_valueerror
    (fvm : Value → String → Bool) (filtersOf : String → List (String × String))
    (cp : Dict) :
    _get_filtered_item_types_from_settings fvm filtersOf [] cp =
      Except.error "ValueError: max() arg is an empty sequence" := rfl

/-- C6: candidates whose item type has an empty `manifest_field_filters`
configuration appear unmodified in the scorer's output in both modes, and
in non-manifest mode (no `manifest_file_fields` key) every output
candidate has an empty filter configuration — candidates with filters are
excluded entirely. -/
theorem scorer_filterless_passthrough_and_exclusion
    (fvm : Value → String → Bool) (filtersOf : String → List (String × String))
    (candidates : List Candidate) (cp : Dict) (m : Int) (out : List Candidate)
    (hm : maxResolutionOrder? candidates = some m)
    (hout : _get_filtered_item_types_from_settings fvm filtersOf candidates cp =
      Except.ok out) :
    (∀ c ∈ candidates, filtersOf c.itemType = [] → c ∈ out) ∧
    (dlookup cp "manifest_file_fields" = none →
      ∀ c ∈ out, filtersOf c.itemType = []) := by
  cases hcp : dlookup cp "manifest_file_fields" with
  | some mff =>
    unfold _get_filtered_item_types_from_settings at hout
    rw [hm, hcp] at hout
    simp only [Except.ok.injEq] at hout
    subst hout
    constructor
    · intro c hcmem hfilters
      rw [(List.mergeSort_perm _ _).mem_iff]
      refine List.mem_map.mpr ⟨c, hcmem, ?_⟩
      simp [hfilters]
    · intro hnone
      exact Option.noConfusion hnone
  | none =>
    unfold _get_filtered_item_types_from_settings at hout
    rw [hm, hcp] at hout
    simp only [Except.ok.injEq] at hout
    subst hout
    constructor
    · intro c hcmem hfilters
      rw [(List.mergeSort_perm _ _).mem_iff]
      exact List.mem_filter.mpr ⟨hcmem, by simp [hfilters]⟩
    · intro _ c hcmem
      rw [(List.mergeSort_perm _ _).mem_iff] at hcmem
      have := (List.mem_filter.mp hcmem).2
      simpa [List.isEmpty_iff] using this

/-- C6 witness: on the sample non-manifest input the filterless candidate
passes through into the output. -/
theorem scorer_filterless_passthrough_and_exclusion_witness :
    cand2 ∈ outNoManifestEx := by
  have h := scorer_filterless_passthrough_and_exclusion fvmTrue filtersOfEx candidatesEx
    cpNoManifestEx 10 outNoManifestEx rfl rfl
  exact h.1 cand2 (List.mem_cons_of_mem _ (List.mem_cons_self _ _)) (by decide)

/-! Claim theorems for `_process_manifest_file` error handling (C3). -/

/-- C3 counterexample: a failure to open the manifest file happens outside
the `try` block and propagates to the caller instead of yielding an empty
document — refuting "any read failure ... never raises". -/
theorem manifest_open_failure_propagates :
    _process_manifest_file (fun _ => Except.error "unused") defaultMappings ""
      (Except.error "IOError: cannot open manifest") =
      Except.error "IOError: cannot open manifest" := rfl

/-- C3 (amended): once the manifest file is opened successfully, any
deserialize failure and any failure extracting the
`snapshots`/`notes`/`versions` keys makes `_process_manifest_file` return
an empty document after logging; only a failure of `open` itself
propagates. -/
theorem manifest_parse_failure_returns_empty
    (yamlLoad : String → Except String Value) (m : Mappings)
    (baseDir raw e : String)
    (h : (yamlLoad raw).bind extractContents = Except.error e) :
    _process_manifest_file yamlLoad m baseDir (Except.ok raw) = Except.ok [] ∧
    ∀ e2 : String,
      _process_manifest_file yamlLoad m baseDir (Except.error e2) =
        Except.error e2 := by
  constructor
  · unfold _process_manifest_file
    dsimp only
    rw [h]
  · intro e2
    rfl

/-- C3 witness: a document that deserializes to a non-mapping yields the
empty processed list. -/
theorem manifest_parse_failure_returns_empty_witness :
    _process_manifest_file (fun _ => Except.ok (Value.list [])) defaultMappings
      "/pkg" (Except.ok "raw contents") = Except.ok [] :=
  (manifest_parse_failure_returns_empty (fun _ => Except.ok (Value.list []))
    defaultMappings "/pkg" "raw contents" "TypeError: not subscriptable" rfl).1

/-! Claim theorems for `_get_item_context_from_path` (C7). -/

/-- C7 counterexample: an exception raised by the `Task` create call is not
caught inside `_get_item_context_from_path` — it propagates to the caller
instead of being logged, refuting "any entity-creation failure here is
logged and resolution proceeds ... never fatal". -/
theorem task_create_exception_propagates :
    _get_item_context_from_path (fun _ _ => ctxNoStep) false
      (Except.ok (some vendorStep)) (Except.ok none)
      (Except.error "Fault: Task create failed") (Except.ok ())
      "/pkg/file.exr" [] = Except.error "Fault: Task create failed" := rfl

/-- C7 (amended): a `Task` create round-trip that *returns* no entity is
logged and resolution proceeds with the context already obtained
(non-fatal), but a create call that *raises* propagates the exception to
the caller. -/
theorem task_create_failure_handling
    (resolve : String → List Entity → Context) (isTemplateString : Bool)
    (findStep : Except String (Option Entity)) (updateStatus : Except String Unit)
    (path : String) (defaults : List Entity) (ent stepEntity : Entity) (cv : Value)
    (hentity : (resolve (if isTemplateString then baseName path else path)
      defaults).entity = some ent)
    (hstep : (resolve (if isTemplateString then baseName path else path)
      defaults).step = none)
    (hfind : findStep = Except.ok (some stepEntity))
    (hcontent : stepContent stepEntity = Except.ok cv) :
    (_get_item_context_from_path resolve isTemplateString findStep
        (Except.ok none) (Except.ok none) updateStatus path defaults =
      Except.ok (resolve (if isTemplateString then baseName path else path)
        defaults)) ∧
    (∀ e, _get_item_context_from_path resolve isTemplateString findStep
        (Except.ok none) (Except.error e) updateStatus path defaults =
      Except.error e) := by
  constructor
  · unfold _get_item_context_from_path
    dsimp only
    rw [hentity, hstep, hfind]
    dsimp only
    rw [hcontent]
    rfl
  · intro e
    unfold _get_item_context_from_path
    dsimp only
    rw [hentity, hstep, hfind]
    dsimp only
    rw [hcontent]
    rfl

/-- C7 witness: a concrete run in which the create returns no entity and
the already-obtained context comes back unchanged. -/
theorem task_create_failure_handling_witness :
    _get_item_context_from_path (fun _ _ => ctxNoStep) false
      (Except.ok (some vendorStep)) (Except.ok none) (Except.ok none)
      (Except.ok ()) "/pkg/file.exr" [] = Except.ok ctxNoStep :=
  (task_create_failure_handling (fun _ _ => ctxNoStep) false
    (Except.ok (some vendorStep)) (Except.ok ()) "/pkg/file.exr" []
    [("type", Value.str "Shot"), ("id", Value.int 2)] vendorStep
    (Value.str "vendor") rfl rfl rfl rfl).1

/-! Claim theorem for `IngestFilesPlugin.undo` (C9). -/

/-- C9: `undo` issues a delete against the tracking database only when the
item carries (truthy) `ingest_entity_data` and the fresh lookup found a
linked entity whose `sg_published_files` list is empty; whenever no delete
is issued (and no exception propagates) the properties are unchanged; and
the properties change only by popping `ingest_entity_data` after a delete
that succeeded. -/
theorem undo_delete_gating (props : Dict)
    (findLinked : Except String (Option Entity))
    (deleteResult : Except String Unit) :
    ((undo props findLinked deleteResult).deleteIssued = true →
      ∃ d le, dlookup props "ingest_entity_data" = some d ∧ truthy d = true ∧
        findLinked = Except.ok (some le) ∧
        dlookup le "sg_published_files" = some (Value.list [])) ∧
    ((undo props findLinked deleteResult).deleteIssued = false →
      ∀ q, (undo props findLinked deleteResult).result = Except.ok q →
        q = props) ∧
    (∀ q, (undo props findLinked deleteResult).result = Except.ok q →
      q ≠ props →
      deleteResult = Except.ok () ∧ q = dictPop props "ingest_entity_data") := by
  unfold undo
  cases hd : dlookup props "ingest_entity_data" with
  | none =>
    exact ⟨fun h => Bool.noConfusion h,
      fun _ q hq => (Except.ok.inj hq).symm,
      fun q hq hne => absurd (Except.ok.inj hq).symm hne⟩
  | some ledata =>
    dsimp only
    cases findLinked with
    | error e =>
      exact ⟨fun h => Bool.noConfusion h,
        fun _ q hq => Except.noConfusion hq,
        fun q hq hne => Except.noConfusion hq⟩
    | ok linkedEntity =>
      dsimp only
      cases htr : truthy ledata with
      | false =>
        exact ⟨fun h => Bool.noConfusion h,
          fun _ q hq => (Except.ok.inj hq).symm,
          fun q hq hne => absurd (Except.ok.inj hq).symm hne⟩
      | true =>
        cases linkedEntity with
        | none =>
          exact ⟨fun h => Bool.noConfusion h,
            fun _ q hq => (Except.ok.inj hq).symm,
            fun q hq hne => absurd (Except.ok.inj hq).symm hne⟩
        | some le =>
          dsimp only
          cases hpf : dlookup le "sg_published_files" with
          | none =>
            exact ⟨fun h => Bool.noConfusion h,
              fun _ q hq => Except.noConfusion hq,
              fun q hq hne => Except.noConfusion hq⟩
          | some pf =>
            cases pf with
            | list pfs =>
              dsimp only
              cases pfs with
              | nil =>
                cases deleteResult with
                | ok u =>
                  exact ⟨fun _ => ⟨ledata, le, rfl, htr, rfl, hpf⟩,
                    fun hfalse => Bool.noConfusion hfalse,
                    fun q hq hne => ⟨rfl, (Except.ok.inj hq).symm⟩⟩
                | error de =>
                  exact ⟨fun _ => ⟨ledata, le, rfl, htr, rfl, hpf⟩,
                    fun hfalse => Bool.noConfusion hfalse,
                    fun q hq hne => absurd (Except.ok.inj hq).symm hne⟩
              | cons pfh pft =>
                exact ⟨fun h => Bool.noConfusion h,
                  fun _ q hq => (Except.ok.inj hq).symm,
                  fun q hq hne => absurd (Except.ok.inj hq).symm hne⟩
            | vnone =>
              exact ⟨fun h => Bool.noConfusion h,
                fun _ q hq => Except.noConfusion hq,
                fun q hq hne => Except.noConfusion hq⟩
            | str sv =>
              exact ⟨fun h => Bool.noConfusion h,
                fun _ q hq => Except.noConfusion hq,
                fun q hq hne => Except.noConfusion hq⟩
            | int nv =>
              exact ⟨fun h => Bool.noConfusion h,
                fun _ q hq => Except.noConfusion hq,
                fun q hq hne => Except.noConfusion hq⟩
            | dict dv =>
              exact ⟨fun h => Bool.noConfusion h,
                fun _ q hq => Except.noConfusion hq,
                fun q hq hne => Except.noConfusion hq⟩

/-- C9 witness: with truthy `ingest_entity_data`, a fresh lookup finding an
entity with no linked published files, and a successful delete, the gating
conditions are all realized. -/
theorem undo_delete_gating_witness :
    ∃ d le, dlookup propsEx "ingest_entity_data" = some d ∧ truthy d = true ∧
      (Except.ok (some linkedEx) : Except String (Option Entity)) =
        Except.ok (some le) ∧
      dlookup le "sg_published_files" = some (Value.list []) :=
  (undo_delete_gating propsEx (Except.ok (some linkedEx)) (Except.ok ())).1 rfl

/-! Lemmas connecting `dictOfPairs` entries/keys to the input pairs,
used for the Field Mapper round-trip (C8). -/

theorem dlookup_mem {V : Type} (d : List (String × V)) (k : String) (v : V)
    (h : dlookup d k = some v) : (k, v) ∈ d := by
  induction d with
  | nil => cases h
  | cons p rest ih =>
    by_cases hp : p.1 = k
    · simp only [dlookup, if_pos hp] at h
      have hpv : (k, v) = p := Prod.ext hp.symm (Option.some.inj h).symm
      exact List.mem_cons.mpr (Or.inl hpv)
    · simp only [dlookup, if_neg hp] at h
      exact List.mem_cons_of_mem _ (ih h)

theorem mem_keys_foldl_dictInsert {V : Type} (ps : List (String × V)) :
    ∀ (acc : List (String × V)) (a : String),
      a ∈ (ps.foldl (fun d p => dictInsert d p.1 p.2) acc).map Prod.fst ↔
        a ∈ acc.map Prod.fst ∨ a ∈ ps.map Prod.fst := by
  induction ps with
  | nil => intro acc a; simp
  | cons p rest ih =>
    intro acc a
    simp only [List.foldl_cons]
    rw [ih (dictInsert acc p.1 p.2) a, mem_keys_dictInsert]
    simp only [List.map_cons, List.mem_cons]
    tauto

theorem mem_keys_dictOfPairs {V : Type} (ps : List (String × V)) (a : String) :
    a ∈ (dictOfPairs ps).map Prod.fst ↔ a ∈ ps.map Prod.fst := by
  unfold dictOfPairs
  rw [mem_keys_foldl_dictInsert]
  simp

theorem dlookup_isSome_iff_mem_keys {V : Type} (d : List (String × V))
    (k : String) : (dlookup d k).isSome ↔ k ∈ d.map Prod.fst := by
  induction d with
  | nil => simp [dlookup]
  | cons p rest ih =>
    by_cases hp : p.1 = k
    · simp [dlookup, hp]
    · have hp2 : ¬ k = p.1 := fun h => hp h.symm
      simp [dlookup, hp, ih, hp2]

theorem mem_foldl_dictInsert {V : Type} (ps : List (String × V)) :
    ∀ (acc : List (String × V)) (q : String × V),
      q ∈ ps.foldl (fun d p => dictInsert d p.1 p.2) acc →
        q ∈ acc ∨ q ∈ ps := by
  induction ps with
  | nil => intro acc q h; exact Or.inl h
  | cons p rest ih =>
    intro acc q h
    simp only [List.foldl_cons] at h
    rcases ih (dictInsert acc p.1 p.2) q h with h1 | h1
    · rcases mem_dictInsert acc p.1 p.2 q h1 with h2 | h2
      · exact Or.inr (List.mem_cons.mpr (Or.inl (h2.trans (Prod.mk.eta))))
      · exact Or.inl h2
    · exact Or.inr (List.mem_cons_of_mem _ h1)

theorem dictOfPairs_entry_mem {V : Type} (ps : List (String × V))
    (q : String × V) (h : q ∈ dictOfPairs ps) : q ∈ ps := by
  unfold dictOfPairs at h
  rcases mem_foldl_dictInsert ps [] q h with h1 | h1
  · cases h1
  · exact h1

/-! Claim theorems for the Field Mapper round-trip (C8). -/

/-- C8 counterexample: with the default `file`/`snapshots` table, the
manifest key `sg_snapshot_id` is absent from the table (so the forward
mapping leaves it unchanged), but the inverse table maps it back to `id` —
the round trip does not return the original key, refuting the claim for
keys that appear among the table's values. -/
theorem field_mapper_roundtrip_fails_on_value_key :
    mapKey (invertTable fileSnapshotsMapping)
      (mapKey fileSnapshotsMapping "sg_snapshot_id") ≠ "sg_snapshot_id" := by
  decide

/-- C8 (amended): for a mapping table whose values do not collide
(injective, as all the configured tables are), the Field Mapper round trip
returns the original key whenever the key is present in the table, and
whenever the key is absent from both the table's keys and its values; a
key that appears among the values (without being a key) is instead mapped
back to that value's source key. -/
theorem field_mapper_roundtrip_amended
    (t : List (String × String))
    (hinj : ∀ p ∈ t, ∀ q ∈ t, p.2 = q.2 → p.1 = q.1)
    (k : String)
    (hk : (dlookup t k).isSome ∨ ∀ p ∈ t, p.2 ≠ k) :
    mapKey (invertTable t) (mapKey t k) = k := by
  cases hv : dlookup t k with
  | some v =>
    have hfwd : mapKey t k = v := by unfold mapKey; rw [hv]
    rw [hfwd]
    have hmem : (k, v) ∈ t := dlookup_mem t k v hv
    have hsome : (dlookup (invertTable t) v).isSome := by
      rw [dlookup_isSome_iff_mem_keys]
      unfold invertTable
      rw [mem_keys_dictOfPairs]
      exact List.mem_map.mpr ⟨(v, k), List.mem_map.mpr ⟨(k, v), hmem, rfl⟩, rfl⟩
    cases hw : dlookup (invertTable t) v with
    | none => rw [hw] at hsome; cases hsome
    | some w =>
      have hwmem : (v, w) ∈ t.map (fun p => (p.2, p.1)) := by
        apply dictOfPairs_entry_mem
        unfold invertTable at hw
        exact dlookup_mem _ v w hw
      rcases List.mem_map.mp hwmem with ⟨p, hp, hpe⟩
      have h2 : p.2 = v := congrArg Prod.fst hpe
      have h1 : p.1 = w := congrArg Prod.snd hpe
      have hpk : p.1 = k := hinj p hp (k, v) hmem (by rw [h2])
      have : mapKey (invertTable t) v = w := by unfold mapKey; rw [hw]
      rw [this, ← h1, hpk]
  | none =>
    have hnv : ∀ p ∈ t, p.2 ≠ k := by
      rcases hk with h | h
      · rw [hv] at h; cases h
      · exact h
    have hfwd : mapKey t k = k := by unfold mapKey; rw [hv]
    rw [hfwd]
    have hinvnone : dlookup (invertTable t) k = none := by
      apply dlookup_eq_none_of_not_mem_keys
      unfold invertTable
      rw [mem_keys_dictOfPairs]
      intro hcon
      rcases List.mem_map.mp hcon with ⟨sw, hsw, hswe⟩
      rcases List.mem_map.mp hsw with ⟨p, hp, hpe⟩
      exact hnv p hp (by rw [← hswe, ← hpe])
    unfold mapKey
    rw [hinvnone]

/-- C8 witness: with the default `file`/`snapshots` table, the key `id`
(present in the table) round-trips back to `id`. -/
theorem field_mapper_roundtrip_amended_witness :
    mapKey (invertTable fileSnapshotsMapping)
      (mapKey fileSnapshotsMapping "id") = "id" :=
  field_mapper_roundtrip_amended fileSnapshotsMapping (by decide) "id"
    (Or.inl (by decide))

/-! Claim theorems for the note field merge (C4, C5) and the attachment
handling (C10). -/

theorem keysND_snapshotContribution (table : List (String × String))
    (s d : Dict) (h : snapshotContribution table s = Except.ok d) :
    (d.map Prod.fst).Nodup := by
  unfold snapshotContribution at h
  by_cases hft : (dlookup s "file_types").isSome
  · rw [if_pos hft] at h
    cases hlk : dlookup (mapFields table s) "file_types" with
    | some v =>
      rw [hlk] at h
      have hd := Except.ok.inj h
      rw [← hd]
      exact keysND_dictPop _ _ (keysND_mapFields table s)
    | none =>
      rw [hlk] at h
      cases h
  · rw [if_neg hft] at h
    have hd := Except.ok.inj h
    rw [← hd]
    exact keysND_mapFields table s

/-- C4: for a note whose index is within range of both the snapshots and
versions lists (so its records are the positional ones), every key of the
merged fields resolves with snapshot-over-version-over-note precedence:
the (mapped, `file_types`-dropped) snapshot contribution if present, else
the (mapped, `notes`-dropped) version contribution if present, else the
note's own (mapped, link-injected) fields. -/
theorem note_merge_field_precedence
    (m : NoteMappings) (note : Dict) (snapshots versions : List Value)
    (i : Nat) (snapRec verRec : Dict) (fields1 snapFields merged : Dict)
    (hs : i < snapshots.length) (hv : i < versions.length)
    (hsd : snapshots.getD i (Value.dict []) = Value.dict snapRec)
    (hvd : versions.getD i (Value.dict []) = Value.dict verRec)
    (hf1 : noteFieldsWithLinks m.notes note = Except.ok fields1)
    (hsf : snapshotContribution m.snapshots snapRec = Except.ok snapFields)
    (hm : mergeRecordFields m fields1 snapRec verRec = Except.ok merged) :
    ∀ k, dlookup merged k =
      (match dlookup snapFields k with
       | some v => some v
       | none =>
         match dlookup (versionContribution m.versions verRec) k with
         | some v => some v
         | none => dlookup fields1 k) := by
  intro k
  unfold mergeRecordFields at hm
  rw [hsf] at hm
  dsimp only at hm
  have hme := Except.ok.inj hm
  rw [← hme]
  have hndver : ((versionContribution m.versions verRec).map Prod.fst).Nodup := by
    unfold versionContribution
    exact keysND_mapFields _ _
  rw [dlookup_dictUpdate snapFields _ (keysND_snapshotContribution m.snapshots snapRec snapFields hsf) k]
  rw [dlookup_dictUpdate (versionContribution m.versions verRec) fields1 hndver k]
  cases dlookup snapFields k with
  | some v => rfl
  | none => cases dlookup (versionContribution m.versions verRec) k <;> rfl

/-- C4 witness: in the sample note/snapshot/version triple, the key
`extra` is present in both the note and its snapshot record, and the
merged value is the snapshot's. -/
theorem note_merge_field_precedence_witness :
    dlookup mergedC4 "extra" = some (Value.str "s") := by
  have h := note_merge_field_precedence defaultNoteMappings noteExC4 snapshotsC4
    versionsC4 0 snapRecC4 verRecC4 fields1C4 snapFieldsC4 mergedC4
    (by decide) (by decide) rfl rfl rfl rfl rfl
  exact (h "extra").trans rfl

/-- C5: when `notes_index` is out of range of the snapshots list or of the
versions list, the record selection returns two empty records, and merging
with empty records leaves exactly the note's own (mapped, link-injected)
fields. -/
theorem note_index_out_of_range_no_merge
    (m : NoteMappings) (note : Dict) (snapshots versions : List Value)
    (i : Nat) (fields1 : Dict)
    (h : i ≥ snapshots.length ∨ i ≥ versions.length)
    (hf1 : noteFieldsWithLinks m.notes note = Except.ok fields1) :
    selectNoteRecords snapshots (Value.list versions) i =
      Except.ok (Value.dict [], Value.dict []) ∧
    mergeRecordFields m fields1 [] [] = Except.ok fields1 := by
  constructor
  · unfold selectNoteRecords
    rcases h with h | h
    · rw [if_pos h]
    · by_cases h2 : i ≥ snapshots.length
      · rw [if_pos h2]
      · rw [if_neg h2]
        dsimp only
        rw [if_pos h]
  · rfl

/-- C5 witness: index 0 with an empty snapshots list selects empty
records, and the merge returns the sample note's own fields untouched. -/
theorem note_index_out_of_range_no_merge_witness :
    selectNoteRecords [] (Value.list versionsC4) 0 =
      Except.ok (Value.dict [], Value.dict []) ∧
    mergeRecordFields defaultNoteMappings fields1C4 [] [] =
      Except.ok fields1C4 :=
  note_index_out_of_range_no_merge defaultNoteMappings noteExC4 [] versionsC4 0
    fields1C4 (Or.inl (by decide)) rfl

/-- C10: every note reaching the attachment step must carry an
`attachments` key in its merged fields — `pop` on a missing key raises
`KeyError`, which aborts the whole note loop; a note whose attachments
list is empty is processed successfully into a file-less entry (no file
group, `attachments` field re-created as an empty list). -/
theorem note_attachments_pop_behavior
    (m : NoteMappings) (baseDir : String) (snapshots : List Value)
    (versionsV : Value) (i : Nat) (note : Dict)
    (fields1 fields3 : Dict) (snapV verV : Value) (sd vd : Dict)
    (hf1 : noteFieldsWithLinks m.notes note = Except.ok fields1)
    (hsel : selectNoteRecords snapshots versionsV i = Except.ok (snapV, verV))
    (hsd : asDict snapV = Except.ok sd)
    (hvd : asDict verV = Except.ok vd)
    (hmerge : mergeRecordFields m fields1 sd vd = Except.ok fields3) :
    (dlookup fields3 "attachments" = none →
      processNote m baseDir snapshots versionsV i note =
        Except.error "KeyError: attachments" ∧
      ∀ rest, processNotesFrom m baseDir snapshots versionsV i
          (Value.dict note :: rest) = Except.error "KeyError: attachments") ∧
    (dlookup fields3 "attachments" = some (Value.list []) →
      processNote m baseDir snapshots versionsV i note =
        Except.ok ⟨dictInsert (dictPop fields3 "attachments") "attachments"
          (Value.list []), []⟩) := by
  have hpn : processNote m baseDir snapshots versionsV i note =
      processAttachments baseDir fields3 := by
    unfold processNote
    rw [hf1]
    dsimp only
    rw [hsel]
    dsimp only
    rw [hsd]
    dsimp only
    rw [hvd]
    dsimp only
    rw [hmerge]
  constructor
  · intro hnone
    constructor
    · rw [hpn]
      unfold processAttachments
      rw [hnone]
    · intro rest
      unfold processNotesFrom
      dsimp only [asDict]
      rw [hpn]
      unfold processAttachments
      rw [hnone]
  · intro hsome
    rw [hpn]
    unfold processAttachments
    rw [hsome]
    rfl

/-- C10 witness: the sample note with an empty attachments list is
processed into a file-less note entry with an empty `attachments` field. -/
theorem note_attachments_pop_behavior_witness :
    processNote defaultNoteMappings "/pkg" [] (Value.list []) 0 noteExC10 =
      Except.ok ⟨dictInsert (dictPop fields3C10 "attachments") "attachments"
        (Value.list []), []⟩ :=
  (note_attachments_pop_behavior defaultNoteMappings "/pkg" [] (Value.list []) 0
    noteExC10 fields1C10 fields3C10 (Value.dict []) (Value.dict []) [] []
    rfl rfl rfl rfl rfl).2 rfl
